import Mathlib

/-!
Shallow embedding of the juju control-plane core: the transactional state
layer (meter status, requested networks) and the API server lifecycle
(accept loop, mongo pinger, connection handlers, login limiter), together
with theorems checking the natural-language specification against it.
-/

set_option maxHeartbeats 1000000

namespace Juju

namespace state

/-! ### Collections and documents (from the state package) -/

/-- Collection names used by the embedded fragment of the state package. -/
def unitsC : String := "units"

def meterStatusC : String := "meterstatus"

def requestedNetworksC : String := "requestednetworks"

/-- Life of an entity document; `isAliveDoc` asserts the stored life is `alive`. -/
inductive Life where
  | alive
  | dying
  | dead
deriving DecidableEq, Repr

/-- Meter status codes (source: `type MeterStatusCode string` and its constants). -/
abbrev MeterStatusCode := String

def MeterNotSet : MeterStatusCode := "NOT SET"

def MeterNotAvailable : MeterStatusCode := "NOT AVAILABLE"

def MeterGreen : MeterStatusCode := "GREEN"

def MeterAmber : MeterStatusCode := "AMBER"

def MeterRed : MeterStatusCode := "RED"

/-- `meterStatusDoc` from the source (the `_id` and `env-uuid` fields are part
of the document's store key / scope in the embedding). -/
structure meterStatusDoc where
  Code : MeterStatusCode
  Info : String
deriving DecidableEq, Repr

/-- `requestedNetworksDoc` from the source: `_id` plus a `networks` list. -/
structure requestedNetworksDoc where
  Networks : List String
deriving DecidableEq, Repr

/-- A document value stored in some collection. -/
inductive DocVal where
  | unitDoc (life : Life)
  | meter (d : meterStatusDoc)
  | networks (d : requestedNetworksDoc)
deriving DecidableEq, Repr

/-- The document store: an association list from (collection, id) to document. -/
abbrev Store := List ((String × String) × DocVal)

def lookupDoc (store : Store) (c id : String) : Option DocVal :=
  store.lookup (c, id)

/-! ### Transaction operations (shallow embedding of `txn.Op`) -/

/-- An operation's assertion: `txn.DocExists`, `txn.DocMissing`, the
state package's `isAliveDoc` predicate, or no assertion. -/
inductive Assert where
  | docExists
  | docMissing
  | isAliveDoc
  | noAssert
deriving DecidableEq, Repr

/-- An operation's mutation: the `$set` of the meter fields, an insert,
a remove, or nothing (assert-only op). -/
inductive Mutation where
  | setCodeInfo (code : MeterStatusCode) (info : String)
  | insertDoc (d : DocVal)
  | removeDoc
  | noMutation
deriving DecidableEq, Repr

/-- One `txn.Op`: collection, document id, assertion, mutation. -/
structure Op where
  C : String
  Id : String
  Assert : Assert
  Mut : Mutation
deriving DecidableEq, Repr

def assertHolds (store : Store) (op : Op) : Bool :=
  match op.Assert with
  | .docExists => (lookupDoc store op.C op.Id).isSome
  | .docMissing => (lookupDoc store op.C op.Id).isNone
  | .isAliveDoc =>
    match lookupDoc store op.C op.Id with
    | some (.unitDoc l) => l = .alive
    | _ => false
  | .noAssert => true

/-- Apply the `$set` of `code`/`info` to the meter document stored at `(c, id)`. -/
def setMeterFields (store : Store) (c id : String) (code : MeterStatusCode)
    (info : String) : Store :=
  store.map fun e =>
    if e.1 = (c, id) then
      match e.2 with
      | .meter _ => (e.1, .meter ⟨code, info⟩)
      | v => (e.1, v)
    else e

def removeKey (store : Store) (c id : String) : Store :=
  store.filter fun e => !(e.1 == (c, id))

def applyMut (store : Store) (op : Op) : Store :=
  match op.Mut with
  | .setCodeInfo code info => setMeterFields store op.C op.Id code info
  | .insertDoc d => ((op.C, op.Id), d) :: removeKey store op.C op.Id
  | .removeDoc => removeKey store op.C op.Id
  | .noMutation => store

/-- Atomic commit of an operation set: every assertion is checked against the
pre-state; if any fails the whole set is rejected (`none`) and the store is
untouched, otherwise all mutations apply. -/
def applyOps (store : Store) (ops : List Op) : Option Store :=
  if ops.all (assertHolds store) then some (ops.foldl applyMut store) else none

/-! ### The `State` handle and units -/

/-- The fragment of `*state.State` the embedded operations use: the
environment (tenant) UUID used to build env-scoped document ids. -/
structure State where
  envUUID : String
deriving DecidableEq, Repr

/-- `st.docID(key)`: documents are keyed by the composite
`<env-scope>:<entity-key>` id (spec section 3). -/
def State.docID (st : State) (key : String) : String :=
  st.envUUID ++ ":" ++ key

/-- The fragment of `*state.Unit` the embedded operations use. -/
structure Unit where
  name : String
  docID : String
  globalKey : String
deriving DecidableEq, Repr

/-! ### Meter status operations (source: the meter-status state file) -/

/-- `setMeterStatusOp`: assert the owning unit's document is alive, assert the
meter-status document exists, and `$set` its `code`/`info` fields. -/
def setMeterStatusOp (u : Unit) (st : State) (globalKey : String)
    (code : MeterStatusCode) (info : String) : List Op :=
  [ { C := unitsC, Id := u.docID, Assert := .isAliveDoc, Mut := .noMutation },
    { C := meterStatusC, Id := st.docID globalKey, Assert := .docExists,
      Mut := .setCodeInfo code info } ]

/-- `createMeterStatusOp`: insert the meter-status document, asserting it is
missing. -/
def createMeterStatusOp (st : State) (globalKey : String)
    (doc : meterStatusDoc) : Op :=
  { C := meterStatusC, Id := st.docID globalKey, Assert := .docMissing,
    Mut := .insertDoc (.meter doc) }

/-- `removeMeterStatusOp`: remove the meter-status document, no assertion. -/
def removeMeterStatusOp (st : State) (globalKey : String) : Op :=
  { C := meterStatusC, Id := st.docID globalKey, Assert := .noAssert,
    Mut := .removeDoc }

/-- Errors surfaced by the embedded state operations. -/
inductive Err where
  | invalidMeterStatus (code : String)
  | meterStatusMissing (unitName : String)
  | unitNotFound (unitName : String)
  | excessiveContention
deriving DecidableEq, Repr

/-- `getMeterStatusDoc`: read the unit's meter-status document. The source
reads `meterStatusC` through an env-scoped collection at `u.globalKey()`;
documents of that collection are keyed `<env-scope>:<entity-key>`
(spec section 3), so the lookup resolves to `st.docID u.globalKey`. -/
def getMeterStatusDoc (store : Store) (st : State) (u : Unit) :
    Option meterStatusDoc :=
  match lookupDoc store meterStatusC (st.docID u.globalKey) with
  | some (.meter d) => some d
  | _ => none

/-- A meter-status code is accepted by `SetMeterStatus`'s switch exactly when
it is GREEN, AMBER or RED. -/
def validMeterCode (code : String) : Bool :=
  code == MeterGreen || code == MeterAmber || code == MeterRed

/-- `u.Refresh()`: succeeds exactly when the unit document is still present. -/
def refreshUnit (store : Store) (u : Unit) : Bool :=
  (lookupDoc store unitsC u.docID).isSome

/-- The `buildTxn` closure of `SetMeterStatus`: on a retry attempt (> 0) it
refreshes the unit, re-reads the meter-status document and signals
`jujutxn.ErrNoOperations` (embedded as `.ok none`) when the fresh document
already matches; otherwise it returns the `setMeterStatusOp` operation set. -/
def SetMeterStatusBuildTxn (store : Store) (st : State) (u : Unit)
    (code : MeterStatusCode) (info : String) (attempt : Nat) :
    Except Err (Option (List Op)) :=
  if attempt > 0 then
    if refreshUnit store u then
      match getMeterStatusDoc store st u with
      | none => .error (.meterStatusMissing u.name)
      | some meterDoc =>
        if meterDoc.Code = code ∧ meterDoc.Info = info then
          .ok none
        else
          .ok (some (setMeterStatusOp u st u.globalKey code info))
    else .error (.unitNotFound u.name)
  else .ok (some (setMeterStatusOp u st u.globalKey code info))

/-- Modelled from the spec: the transaction engine behind `st.run(buildTxn)`
(spec section 4.1; the engine itself is the external retry library). It calls
`buildTxn` with an increasing attempt index, treats the no-operations sentinel
as success-with-no-change, commits the returned operation set atomically, and
retries on assertion conflict up to a bound, surfacing a conflict error when
the bound is exceeded. Besides the outcome it returns the list of operation
sets actually submitted to the store. -/
def runAttempts (store : Store)
    (buildTxn : Nat → Except Err (Option (List Op))) :
    Nat → Nat → Except Err Store × List (List Op)
  | _, 0 => (.error .excessiveContention, [])
  | attempt, fuel + 1 =>
    match buildTxn attempt with
    | .error e => (.error e, [])
    | .ok none => (.ok store, [])
    | .ok (some ops) =>
      match applyOps store ops with
      | some store2 => (.ok store2, [ops])
      | none =>
        let r := runAttempts store buildTxn (attempt + 1) fuel
        (r.1, ops :: r.2)

/-- The engine's retry bound (`nrRetries` in the external engine). -/
def nrRetries : Nat := 3

/-- `Unit.SetMeterStatus`: validate the code, read the current meter-status
document, short-circuit to success when it already matches, otherwise run
`buildTxn` through the transaction engine. Returns the resulting store
together with the operation sets submitted to the store. -/
def SetMeterStatus (store : Store) (st : State) (u : Unit)
    (codeRaw info : String) : Except Err Store × List (List Op) :=
  let code : MeterStatusCode := codeRaw
  if validMeterCode code then
    match getMeterStatusDoc store st u with
    | none => (.error (.meterStatusMissing u.name), [])
    | some meterDoc =>
      if meterDoc.Code = code ∧ meterDoc.Info = info then
        (.ok store, [])
      else
        runAttempts store (SetMeterStatusBuildTxn store st u code info) 0 nrRetries
  else
    (.error (.invalidMeterStatus code), [])

/-- `State.SetMeterStatusOnAllUnits`: build `setMeterStatusOp` from the raw
code for every unit (no validation switch) and commit the concatenation as
one transaction. The iteration over `AllServices`/`AllUnits` is flattened to
the given unit list. -/
def SetMeterStatusOnAllUnits (store : Store) (st : State) (units : List Unit)
    (codeRaw info : String) : Except Err Store :=
  let ops := units.flatMap fun u => setMeterStatusOp u st u.globalKey codeRaw info
  match applyOps store ops with
  | some store2 => .ok store2
  | none => .error .excessiveContention

/-- A concrete unit for witnesses: name `u0`, unit document id `unit-u0`,
global key `u#0`. -/
def exUnit : Unit := ⟨"u0", "unit-u0", "u#0"⟩

/-- A concrete state handle with environment UUID `env`. -/
def exSt : State := ⟨"env"⟩

/-- A store holding the live unit `u0` whose meter status is the initial
`NOT SET` with empty info. -/
def exStoreNotSet : Store :=
  [((unitsC, "unit-u0"), .unitDoc .alive),
   ((meterStatusC, "env:u#0"), .meter ⟨MeterNotSet, ""⟩)]

/-- A store holding the live unit `u0` whose meter status is GREEN/ok. -/
def exStoreGreen : Store :=
  [((unitsC, "unit-u0"), .unitDoc .alive),
   ((meterStatusC, "env:u#0"), .meter ⟨MeterGreen, "ok"⟩)]

/-! ### Requested networks (source: the requested-networks state file) -/

/-- Outcome of `st.requestedNetworks.FindId(id).One(&doc)`. -/
inductive FindOutcome where
  | found (doc : requestedNetworksDoc)
  | errNotFound
  | otherErr (msg : String)
deriving DecidableEq, Repr

/-- `readRequestedNetworks`: a missing document (legacy data) is swallowed as
"no networks, no error"; any other error is returned with the zero-value
document's networks. The last component is the list of log messages the
function emits (the source contains no logging call, only a comment). -/
def readRequestedNetworks (find : FindOutcome) :
    (List String × Option String) × List String :=
  match find with
  | .errNotFound => (([], none), [])
  | .otherErr msg => (([], some msg), [])
  | .found doc => ((doc.Networks, none), [])

end state

namespace apiserver

/-! ### Environment UUID validation (source: `validateEnvironUUID`) -/

/-- Errors surfaced by the embedded API server paths. The
`unknownEnvironment` constructor is `common.UnknownEnvironmentError`, a
distinct error from the generic `unauthorized`. -/
inductive APIErr where
  | unknownEnvironment (uuid : String)
  | unauthorized
  | envLookup (msg : String)
deriving DecidableEq, Repr

/-- The fragment of `*Server` that `validateEnvironUUID` uses: the cached
environment UUID (empty until first resolved). -/
structure SrvScope where
  environUUID : String
deriving DecidableEq, Repr

/-- The scope the server resolves a request against: the cached UUID if set,
otherwise the result of `srv.state.Environment()` (given as `stateEnvUUID`). -/
def resolvedScope (srv : SrvScope) (stateEnvUUID : Except String String) :
    Except String String :=
  if srv.environUUID = "" then stateEnvUUID else .ok srv.environUUID

/-- `validateEnvironUUID`: an empty request UUID is admitted (compatibility
and first-connect); otherwise the resolved server scope is compared and a
mismatch fails with `UnknownEnvironmentError`. Returns the server fragment
with the resolved UUID cached. -/
def validateEnvironUUID (srv : SrvScope) (stateEnvUUID : Except String String)
    (envUUID : String) : Except APIErr SrvScope :=
  if envUUID = "" then .ok srv
  else
    match resolvedScope srv stateEnvUUID with
    | .error e => .error (.envLookup e)
    | .ok resolved =>
      if envUUID ≠ resolved then .error (.unknownEnvironment envUUID)
      else .ok { environUUID := resolved }

/-! ### Request notifier ids (source: `globalCounter`, `newRequestNotifier`) -/

/-- Two's-complement wraparound of a 64-bit signed integer. -/
def wrap64 (x : Int) : Int := (x + 2 ^ 63) % 2 ^ 64 - 2 ^ 63

/-- `atomic.AddInt64(&counter, d)`: the stored int64 wraps around. -/
def addInt64 (counter d : Int) : Int := wrap64 (counter + d)

/-- `newRequestNotifier` increments the package-global counter and uses the
new value as the connection id; returns (new counter value, id). -/
def newRequestNotifier (globalCounter : Int) : Int × Int :=
  let id := addInt64 globalCounter 1
  (id, id)

/-- The value of `globalCounter` after `k` calls to `newRequestNotifier`
starting from its zero initial value; the id handed to the `k`-th call
(1-indexed) is `requestCounter k`. -/
def requestCounter : Nat → Int
  | 0 => 0
  | k + 1 => (newRequestNotifier (requestCounter k)).1

/-! ### Server construction (source: `loginRateLimit`, `NewServer`) -/

/-- `loginRateLimit` defines how many concurrent Login requests are accepted. -/
def loginRateLimit : Nat := 10

/-- A bound TCP listener (the result of `net.Listen`). -/
structure Listener where
  addr : String
deriving DecidableEq, Repr

/-- A parsed TLS certificate (the result of `tls.X509KeyPair`). -/
structure TLSCert where
  pemFingerprint : String
deriving DecidableEq, Repr

/-- The fragment of `*Server` that `NewServer` fills in. -/
structure Server where
  stateEnvUUID : String
  addr : String
  dataDir : String
  logDir : String
  limiterCapacity : Nat
deriving DecidableEq, Repr

/-- `NewServer`: bind the listener, parse the certificate/key pair, and on
success return the server with a login limiter of capacity `loginRateLimit`.
`net.Listen` and `tls.X509KeyPair` are passed as their outcomes. -/
def NewServer (listen : Except String Listener)
    (keypair : Except String TLSCert) (stateEnvUUID dataDir logDir : String) :
    Except String Server :=
  match listen with
  | .error e => .error e
  | .ok lis =>
    match keypair with
    | .error e => .error e
    | .ok _ =>
      .ok { stateEnvUUID := stateEnvUUID, addr := lis.addr,
            dataDir := dataDir, logDir := logDir,
            limiterCapacity := loginRateLimit }

/-! ### Server lifecycle (source: `run`, `apiHandler`, `mongoPinger`,
`Stop`, `Kill`, `Wait`, `Dead`)

The concurrent lifecycle is embedded as a labeled transition system: one
thread for `run` (which also performs the accepts of `http.Serve`), one for
the listener-closing goroutine, one for `mongoPinger`'s goroutine, and one
per accepted connection handler. The `sync.WaitGroup` value is the derived
count of threads currently holding a registration. -/

/-- A mongo ping failure message. -/
abbrev PingErr := String

/-- The tomb lifecycle: alive, dying with an optional terminal reason, dead
with that reason. Modelled from the spec (section 4.2 lifecycle
`alive → dying → dead`, "any error that caused the transition is retrieved"
at `dead`) together with the kill semantics the source relies on: the first
kill starts dying, and a later kill with a real error upgrades a nil reason. -/
inductive Tomb where
  | alive
  | dying (reason : Option PingErr)
  | dead (reason : Option PingErr)
deriving DecidableEq, Repr

/-- `tomb.Kill(r)` for `r` a real error or nil (`ErrDying` is a separate
no-op, see `Step.pingerKill`). -/
def Tomb.kill : Tomb → Option PingErr → Tomb
  | .alive, r => .dying r
  | .dying none, some e => .dying (some e)
  | .dying r, _ => .dying r
  | .dead r, _ => .dead r

/-- `tomb.Done()`: the tomb becomes dead with its current reason. -/
def Tomb.done : Tomb → Tomb
  | .alive => .dead none
  | .dying r => .dead r
  | .dead r => .dead r

/-- Program counter of the `run` goroutine. -/
inductive RunPC where
  | spawnCloser
  | spawnPinger
  | serving
  | wgWait
  | tombDone
  | exited
deriving DecidableEq, Repr

/-- Program counter of the listener-closing goroutine spawned by `run`. -/
inductive CloserPC where
  | waitDying
  | closedLis
  | exited
deriving DecidableEq, Repr

/-- Program counter of the `mongoPinger` goroutine spawned by `run`:
`returned r` is `mongoPinger` having returned (`some e` a ping failure,
`none` the `tomb.ErrDying` path), `killed r` is after `srv.tomb.Kill(err)`,
`exited r` after `srv.wg.Done()`. -/
inductive PingerPC where
  | loop
  | returned (r : Option PingErr)
  | killed (r : Option PingErr)
  | exited (r : Option PingErr)
deriving DecidableEq, Repr

/-- Program counter of one connection-handler goroutine (the websocket
handler in `apiHandler`): `started` before `srv.wg.Add(1)`, `added` before
the `srv.tomb.Err() != tomb.ErrStillAlive` check, `serving` while serving
RPCs, `exited served` after `srv.wg.Done()`. -/
inductive HandlerPC where
  | started
  | added
  | serving
  | exited (served : Bool)
deriving DecidableEq, Repr

/-- The server lifecycle state. -/
structure Srv where
  tomb : Tomb
  listenerClosed : Bool
  run : RunPC
  closer : Option CloserPC
  pinger : Option PingerPC
  handlers : List HandlerPC
deriving DecidableEq, Repr

/-- The state right after `NewServer` spawned `run`. -/
def initSrv : Srv :=
  { tomb := .alive, listenerClosed := false, run := .spawnCloser,
    closer := none, pinger := none, handlers := [] }

def closerSlot : Option CloserPC → Nat
  | some .waitDying => 1
  | some .closedLis => 1
  | _ => 0

def pingerSlot : Option PingerPC → Nat
  | some .loop => 1
  | some (.returned _) => 1
  | some (.killed _) => 1
  | _ => 0

def handlerSlot : HandlerPC → Nat
  | .added => 1
  | .serving => 1
  | _ => 0

/-- The `sync.WaitGroup` counter: one registration for the closer goroutine
and the pinger goroutine (added by `run` before spawning them) until their
`wg.Done()`, and one per handler between its `wg.Add(1)` and `wg.Done()`. -/
def wgCount (s : Srv) : Nat :=
  closerSlot s.closer + pingerSlot s.pinger + (s.handlers.map handlerSlot).sum

/-- Transition labels. -/
inductive Lab where
  | stopKill
  | runSpawnCloser
  | runSpawnPinger
  | accept
  | serveExit
  | wgWaitPass
  | runTombDone
  | closerClose
  | closerDone
  | pingOk
  | pingFail (e : PingErr)
  | pingObserveDying
  | pingerKill
  | pingerDone
  | handlerAdd (i : Nat)
  | handlerEarlyExit (i : Nat)
  | handlerBeginServe (i : Nat)
  | handlerFinish (i : Nat)
deriving DecidableEq, Repr

/-- `srv.tomb.Kill(err)` as executed by the pinger goroutine: the
`tomb.ErrDying` return value (embedded as `none`) is a no-op kill, a real
ping error kills the tomb with that reason. -/
def pingerKillTomb (t : Tomb) : Option PingErr → Tomb
  | some e => t.kill (some e)
  | none => t

/-- One interleaved step of the server lifecycle. -/
inductive Step : Srv → Lab → Srv → Prop where
  | stopKill (s : Srv) :
    Step s .stopKill { s with tomb := s.tomb.kill none }
  | runSpawnCloser (s : Srv) (h : s.run = .spawnCloser) :
    Step s .runSpawnCloser
      { s with run := .spawnPinger, closer := some .waitDying }
  | runSpawnPinger (s : Srv) (h : s.run = .spawnPinger) :
    Step s .runSpawnPinger { s with run := .serving, pinger := some .loop }
  | accept (s : Srv) (h : s.run = .serving) (hl : s.listenerClosed = false) :
    Step s .accept { s with handlers := s.handlers ++ [.started] }
  | serveExit (s : Srv) (h : s.run = .serving) (hl : s.listenerClosed = true) :
    Step s .serveExit { s with run := .wgWait }
  | wgWaitPass (s : Srv) (h : s.run = .wgWait) (hw : wgCount s = 0) :
    Step s .wgWaitPass { s with run := .tombDone }
  | runTombDone (s : Srv) (h : s.run = .tombDone) :
    Step s .runTombDone { s with run := .exited, tomb := s.tomb.done }
  | closerClose (s : Srv) (h : s.closer = some .waitDying)
      (hd : s.tomb ≠ .alive) :
    Step s .closerClose
      { s with closer := some .closedLis, listenerClosed := true }
  | closerDone (s : Srv) (h : s.closer = some .closedLis) :
    Step s .closerDone { s with closer := some .exited }
  | pingOk (s : Srv) (h : s.pinger = some .loop) :
    Step s .pingOk s
  | pingFail (s : Srv) (e : PingErr) (h : s.pinger = some .loop) :
    Step s (.pingFail e) { s with pinger := some (.returned (some e)) }
  | pingObserveDying (s : Srv) (h : s.pinger = some .loop)
      (hd : s.tomb ≠ .alive) :
    Step s .pingObserveDying { s with pinger := some (.returned none) }
  | pingerKill (s : Srv) (r : Option PingErr)
      (h : s.pinger = some (.returned r)) :
    Step s .pingerKill
      { s with pinger := some (.killed r), tomb := pingerKillTomb s.tomb r }
  | pingerDone (s : Srv) (r : Option PingErr)
      (h : s.pinger = some (.killed r)) :
    Step s .pingerDone { s with pinger := some (.exited r) }
  | handlerAdd (s : Srv) (i : Nat) (h : s.handlers.get? i = some .started) :
    Step s (.handlerAdd i) { s with handlers := s.handlers.set i .added }
  | handlerEarlyExit (s : Srv) (i : Nat)
      (h : s.handlers.get? i = some .added) (hd : s.tomb ≠ .alive) :
    Step s (.handlerEarlyExit i)
      { s with handlers := s.handlers.set i (.exited false) }
  | handlerBeginServe (s : Srv) (i : Nat)
      (h : s.handlers.get? i = some .added) (ha : s.tomb = .alive) :
    Step s (.handlerBeginServe i)
      { s with handlers := s.handlers.set i .serving }
  | handlerFinish (s : Srv) (i : Nat)
      (h : s.handlers.get? i = some .serving) :
    Step s (.handlerFinish i)
      { s with handlers := s.handlers.set i (.exited true) }

/-- States reachable from the freshly started server. -/
inductive Reachable : Srv → Prop where
  | start : Reachable initSrv
  | step {s l s2} : Reachable s → Step s l s2 → Reachable s2

/-- Rank of the `run` goroutine's program counter. -/
def runRank : RunPC → Nat
  | .spawnCloser => 0
  | .spawnPinger => 1
  | .serving => 2
  | .wgWait => 3
  | .tombDone => 4
  | .exited => 5

/-- The inductive invariant of the lifecycle system. -/
structure Inv (s : Srv) : Prop where
  closerNone : s.run = .spawnCloser → s.closer = none
  pingerNone : runRank s.run ≤ 1 → s.pinger = none
  closerSpawned : s.run ≠ .spawnCloser → s.closer.isSome
  pingerSpawned : 2 ≤ runRank s.run → s.pinger.isSome
  lisClosed : 3 ≤ runRank s.run → s.listenerClosed = true
  closedKilled : s.listenerClosed = true → s.tomb ≠ .alive
  deadExited : ∀ r, s.tomb = .dead r → s.run = .exited
  drained : 4 ≤ runRank s.run →
    s.closer = some .exited ∧ (∃ r, s.pinger = some (.exited r)) ∧
      ∀ h ∈ s.handlers, h ≠ .serving
  reasonFromPinger : ∀ e,
    s.tomb = .dying (some e) ∨ s.tomb = .dead (some e) →
    s.pinger = some (.killed (some e)) ∨ s.pinger = some (.exited (some e))
  pingerReasonInTomb : ∀ e,
    s.pinger = some (.killed (some e)) ∨ s.pinger = some (.exited (some e)) →
    s.tomb = .dying (some e) ∨ s.tomb = .dead (some e)


/-- The value `Wait()`/`Stop()` deliver once the server is dead: the tomb's
terminal reason (`none` while the server is not yet dead). -/
def waitOutcome (s : Srv) : Option (Option PingErr) :=
  match s.tomb with
  | .dead r => some r
  | _ => none

/-- A concrete drained dead state, reached by `Stop()` from the start state. -/
def deadSrv : Srv :=
  { tomb := .dead none, listenerClosed := true, run := .exited,
    closer := some .exited, pinger := some (.exited none), handlers := [] }


/-- A concrete state whose pinger has observed a ping failure. -/
def pingFailSrv : Srv :=
  { tomb := .alive, listenerClosed := false, run := .serving,
    closer := some .waitDying,
    pinger := some (.returned (some "ping-error")), handlers := [] }

/-- The state after the pinger kills the tomb with its ping error. -/
def pingKilledSrv : Srv :=
  { tomb := .dying (some "ping-error"), listenerClosed := false,
    run := .serving, closer := some .waitDying,
    pinger := some (.killed (some "ping-error")), handlers := [] }


/-! ### Login admission limiter (spec section 4.2, "Login admission
control") -/

/-- Modelled from the spec: the state of `utils.Limiter`, the bounded
semaphore `NewServer` creates with capacity `loginRateLimit` and shares
across all connections. `waiting` counts login requests that have arrived
and are blocked on a slot; `active` counts logins currently being
serviced. The limiter itself lives in an external package; its blocking
acquire/release contract is taken from the spec. -/
structure LimState where
  waiting : Nat
  active : Nat
deriving DecidableEq, Repr

inductive LLab where
  | arrive
  | acquire
  | release
deriving DecidableEq, Repr

/-- One step of the login limiter: a login arrives (and blocks), a blocked
login acquires a slot — only when below capacity — or a serviced login
finishes and releases its slot. No transition rejects a waiting login. -/
inductive LStep (cap : Nat) : LimState → LLab → LimState → Prop where
  | arrive (s : LimState) :
    LStep cap s .arrive { s with waiting := s.waiting + 1 }
  | acquire (s : LimState) (hw : 0 < s.waiting) (hc : s.active < cap) :
    LStep cap s .acquire ⟨s.waiting - 1, s.active + 1⟩
  | release (s : LimState) (ha : 0 < s.active) :
    LStep cap s .release { s with active := s.active - 1 }

inductive LReach (cap : Nat) : LimState → Prop where
  | start : LReach cap ⟨0, 0⟩
  | step {s l s2} : LReach cap s → LStep cap s l s2 → LReach cap s2


end apiserver

namespace state

/-! ### Claim C2: assertion pairing in setMeterStatusOp -/

/-- **C2**: every operation set produced by `setMeterStatusOp` contains the
is-alive assertion on the owning unit's document and the document-exists
assertion on the meter-status document alongside the field update, and
committing the set fails atomically — the store is left untouched — on any
store where the unit document is not alive (for example after a concurrent
deletion removed or killed it) or the meter-status document is missing, so
a deletion and a meter-status update can never both succeed. -/
theorem C2_setMeterStatusOp_asserts_alive_and_exists (u : Unit) (st : State)
    (globalKey : String) (code : MeterStatusCode) (info : String) :
    (⟨unitsC, u.docID, .isAliveDoc, .noMutation⟩ : Op) ∈
        setMeterStatusOp u st globalKey code info ∧
    (⟨meterStatusC, st.docID globalKey, .docExists,
        .setCodeInfo code info⟩ : Op) ∈
      setMeterStatusOp u st globalKey code info ∧
    ∀ store : Store,
      (lookupDoc store unitsC u.docID ≠ some (.unitDoc .alive) ∨
        lookupDoc store meterStatusC (st.docID globalKey) = none) →
      applyOps store (setMeterStatusOp u st globalKey code info) = none := by
  refine ⟨by simp [setMeterStatusOp], by simp [setMeterStatusOp], ?_⟩
  intro store h
  rcases h with h | h
  · have hfail :
        assertHolds store ⟨unitsC, u.docID, .isAliveDoc, .noMutation⟩ =
          false := by
      cases hl : lookupDoc store unitsC u.docID with
      | none => simp [assertHolds, hl]
      | some v =>
        cases v with
        | unitDoc l =>
          cases l with
          | alive => exact absurd hl h
          | dying => simp [assertHolds, hl]
          | dead => simp [assertHolds, hl]
        | meter d => simp [assertHolds, hl]
        | networks d => simp [assertHolds, hl]
    simp [applyOps, setMeterStatusOp, hfail]
  · have hfail :
        assertHolds store ⟨meterStatusC, st.docID globalKey, .docExists,
          .setCodeInfo code info⟩ = false := by
      simp [assertHolds, h]
    simp [applyOps, setMeterStatusOp, hfail]

/-- Witness for C2: on the empty store (the unit's documents deleted) the
committed update fails. -/
theorem C2_setMeterStatusOp_asserts_alive_and_exists_witness :
    applyOps [] (setMeterStatusOp exUnit exSt "u#0" MeterGreen "ok") =
      none :=
  (C2_setMeterStatusOp_asserts_alive_and_exists exUnit exSt "u#0"
    MeterGreen "ok").2.2 [] (Or.inl (by decide))

/-! ### Claim C3: idempotent SetMeterStatus -/

/-- **C3 counterexample**: the stored meter status of `exUnit` already
equals the requested `NOT SET`/`""` pair, yet `SetMeterStatus` does not
return success-with-no-operations: the validation switch rejects the code
first. The claim as stated — quantified over every requested code — is
therefore false. -/
theorem C3_counterexample :
    getMeterStatusDoc exStoreNotSet exSt exUnit = some ⟨MeterNotSet, ""⟩ ∧
      SetMeterStatus exStoreNotSet exSt exUnit MeterNotSet "" =
        (.error (.invalidMeterStatus MeterNotSet), []) := by
  constructor <;> rfl

/-- **C3** (amended): for every unit whose stored meter-status code and info
already equal the requested *valid* code (GREEN, AMBER or RED) and info,
`SetMeterStatus` returns success with the store unchanged and no operation
set submitted; on a retry attempt (> 0) the `buildTxn` closure re-reads
fresh state and, when it matches, signals the no-operations sentinel
(`.ok none` — distinct by construction from every `.error`), which the
engine turns into success-with-no-change, submitting nothing. -/
theorem C3_set_meter_status_idempotent (store : Store) (st : State)
    (u : Unit) (code info : String) (doc : meterStatusDoc)
    (hvalid : validMeterCode code = true)
    (hdoc : getMeterStatusDoc store st u = some doc)
    (hcode : doc.Code = code) (hinfo : doc.Info = info) :
    SetMeterStatus store st u code info = (.ok store, []) ∧
    (∀ attempt, 0 < attempt → refreshUnit store u = true →
      SetMeterStatusBuildTxn store st u code info attempt = .ok none) ∧
    (∀ fuel attempt build, build attempt = Except.ok none →
      runAttempts store build attempt (fuel + 1) = (.ok store, [])) := by
  refine ⟨?_, ?_, ?_⟩
  · simp [SetMeterStatus, hvalid, hdoc, hcode, hinfo]
  · intro attempt ha hrefresh
    simp [SetMeterStatusBuildTxn, ha, hrefresh, hdoc, hcode, hinfo]
  · intro fuel attempt build hb
    simp [runAttempts, hb]

/-- Witness for the amended C3: setting GREEN/ok on a unit already
GREEN/ok succeeds with no submitted operations, and the retry closure at
attempt 1 signals the no-operations sentinel. -/
theorem C3_set_meter_status_idempotent_witness :
    SetMeterStatus exStoreGreen exSt exUnit MeterGreen "ok" =
        (.ok exStoreGreen, []) ∧
      SetMeterStatusBuildTxn exStoreGreen exSt exUnit MeterGreen "ok" 1 =
        .ok none :=
  ⟨(C3_set_meter_status_idempotent exStoreGreen exSt exUnit MeterGreen "ok"
      ⟨MeterGreen, "ok"⟩ (by decide) (by decide) rfl rfl).1,
   (C3_set_meter_status_idempotent exStoreGreen exSt exUnit MeterGreen "ok"
      ⟨MeterGreen, "ok"⟩ (by decide) (by decide) rfl rfl).2.1 1
     (by decide) (by decide)⟩

/-! ### Claim C7: legacy missing requested-networks document -/

/-- **C7 counterexample**: on the missing-document outcome the function
returns no data and no error, but its log output is empty — the
compatibility path is *not* explicitly logged (the source carries only a
comment), refuting the logging half of the claim. -/
theorem C7_counterexample :
    (readRequestedNetworks .errNotFound).1 = ([], none) ∧
      ¬ (readRequestedNetworks .errNotFound).2 ≠ [] :=
  ⟨rfl, fun h => h rfl⟩

/-- **C7** (amended): for every id whose requested-networks document is
missing, `readRequestedNetworks` returns no data and no error (the legacy
case is swallowed as "treat as absent"); the compatibility path is marked
by a source comment only and emits no log message. -/
theorem C7_missing_doc_treated_as_absent (find : FindOutcome)
    (h : find = .errNotFound) :
    (readRequestedNetworks find).1 = ([], none) ∧
      (readRequestedNetworks find).2 = [] := by
  subst h
  exact ⟨rfl, rfl⟩

theorem C7_missing_doc_treated_as_absent_witness :
    (readRequestedNetworks .errNotFound).1 = ([], none) ∧
      (readRequestedNetworks .errNotFound).2 = [] :=
  C7_missing_doc_treated_as_absent .errNotFound rfl

/-! ### Claim C10: validation asymmetry -/

/-- **C10**: for every code outside GREEN/AMBER/RED — including `NOT SET`
and `NOT AVAILABLE` — `SetMeterStatus` fails with the invalid-meter-status
error on every store, before any store interaction: no operation set is
submitted and no store result is produced. No such validation guards
`SetMeterStatusOnAllUnits`: for every unit it builds the `setMeterStatusOp`
update carrying the raw code, and on a store where every unit is alive with
its meter-status document present the transaction commits. -/
theorem C10_set_meter_status_validation_asymmetry (store : Store)
    (st : State) (u : Unit) (code info : String)
    (hcode : validMeterCode code = false) :
    SetMeterStatus store st u code info =
        (.error (.invalidMeterStatus code), []) ∧
    validMeterCode MeterNotSet = false ∧
    validMeterCode MeterNotAvailable = false ∧
    (∀ (units : List Unit) (v : Unit), v ∈ units →
      (⟨meterStatusC, st.docID v.globalKey, .docExists,
          .setCodeInfo code info⟩ : Op) ∈
        units.flatMap fun w => setMeterStatusOp w st w.globalKey code info) ∧
    (∀ units : List Unit,
      (∀ v ∈ units,
        lookupDoc store unitsC v.docID = some (.unitDoc .alive) ∧
          ∃ d, lookupDoc store meterStatusC (st.docID v.globalKey) =
            some (.meter d)) →
      ∃ store2, SetMeterStatusOnAllUnits store st units code info =
        .ok store2) := by
  refine ⟨?_, rfl, rfl, ?_, ?_⟩
  · simp [SetMeterStatus, hcode]
  · intro units v hv
    rw [List.mem_flatMap]
    exact ⟨v, hv, by simp [setMeterStatusOp]⟩
  · intro units hall
    have hAll : (units.flatMap
        fun v => setMeterStatusOp v st v.globalKey code info).all
          (assertHolds store) = true := by
      rw [List.all_eq_true]
      intro op hop
      rw [List.mem_flatMap] at hop
      obtain ⟨v, hv, hop⟩ := hop
      obtain ⟨halive, d, hmeter⟩ := hall v hv
      simp [setMeterStatusOp] at hop
      rcases hop with rfl | rfl
      · simp [assertHolds, halive]
      · simp [assertHolds, hmeter]
    simp [SetMeterStatusOnAllUnits, applyOps, hAll]

/-- Witness for C10: `PURPLE` is rejected by `SetMeterStatus` but accepted
by `SetMeterStatusOnAllUnits`, which commits it for the unit `u0`. -/
theorem C10_set_meter_status_validation_asymmetry_witness :
    SetMeterStatus exStoreGreen exSt exUnit "PURPLE" "raw" =
        (.error (.invalidMeterStatus "PURPLE"), []) ∧
      ∃ store2, SetMeterStatusOnAllUnits exStoreGreen exSt [exUnit]
        "PURPLE" "raw" = .ok store2 :=
  ⟨(C10_set_meter_status_validation_asymmetry exStoreGreen exSt exUnit
      "PURPLE" "raw" (by decide)).1,
   (C10_set_meter_status_validation_asymmetry exStoreGreen exSt exUnit
      "PURPLE" "raw" (by decide)).2.2.2.2 [exUnit]
     (by intro v hv; simp at hv; subst hv; exact ⟨by decide, ⟨MeterGreen, "ok"⟩, by decide⟩)⟩

end state

namespace apiserver

theorem Tomb.kill_ne_alive (t : Tomb) (r : Option PingErr) :
    t.kill r ≠ .alive := by
  cases t with
  | alive => simp [Tomb.kill]
  | dying r2 => cases r2 <;> cases r <;> simp [Tomb.kill]
  | dead r2 => simp [Tomb.kill]

theorem Tomb.kill_dead {t : Tomb} {r r2 : Option PingErr}
    (h : t.kill r = .dead r2) : t = .dead r2 := by
  cases t with
  | alive => simp [Tomb.kill] at h
  | dying r3 => cases r3 <;> cases r <;> simp_all [Tomb.kill]
  | dead r3 => simp_all [Tomb.kill]

theorem Tomb.kill_none_some {t : Tomb} {e : PingErr}
    (h : t.kill none = .dying (some e) ∨ t.kill none = .dead (some e)) :
    t = .dying (some e) ∨ t = .dead (some e) := by
  cases t with
  | alive => simp [Tomb.kill] at h
  | dying r3 => cases r3 <;> simp_all [Tomb.kill]
  | dead r3 => simp_all [Tomb.kill]

theorem Tomb.kill_none_pres {t : Tomb} {e : PingErr}
    (h : t = .dying (some e) ∨ t = .dead (some e)) :
    t.kill none = .dying (some e) ∨ t.kill none = .dead (some e) := by
  rcases h with h | h <;> subst h <;> simp [Tomb.kill]

theorem Tomb.done_ne_alive (t : Tomb) : t.done ≠ .alive := by
  cases t <;> simp [Tomb.done]

theorem Tomb.done_some {t : Tomb} {e : PingErr}
    (h : t.done = .dying (some e) ∨ t.done = .dead (some e)) :
    t = .dying (some e) ∨ t = .dead (some e) := by
  cases t with
  | alive => simp_all [Tomb.done]
  | dying r3 => simp_all [Tomb.done]
  | dead r3 => simp_all [Tomb.done]

theorem Tomb.done_pres {t : Tomb} {e : PingErr}
    (h : t = .dying (some e) ∨ t = .dead (some e)) :
    t.done = .dying (some e) ∨ t.done = .dead (some e) := by
  rcases h with h | h <;> subst h <;> simp [Tomb.done]

theorem Tomb.kill_some_from {t : Tomb} {e : PingErr}
    (h : t = .alive ∨ t = .dying none) :
    t.kill (some e) = .dying (some e) := by
  rcases h with h | h <;> subst h <;> simp [Tomb.kill]

theorem inv_init : Inv initSrv := by
  refine ⟨?_, ?_, ?_, ?_, ?_, ?_, ?_, ?_, ?_, ?_⟩ <;> simp [initSrv, runRank]

theorem closerSlot_zero {c : Option CloserPC} (hs : c.isSome)
    (h : closerSlot c = 0) : c = some .exited := by
  cases c with
  | none => simp at hs
  | some pc => cases pc <;> simp_all [closerSlot]

theorem pingerSlot_zero {p : Option PingerPC} (hs : p.isSome)
    (h : pingerSlot p = 0) : ∃ r, p = some (.exited r) := by
  cases p with
  | none => simp at hs
  | some pc =>
    cases pc with
    | exited r => exact ⟨r, rfl⟩
    | loop => simp [pingerSlot] at h
    | returned r => simp [pingerSlot] at h
    | killed r => simp [pingerSlot] at h

theorem handlerSlot_zero {h : HandlerPC} (hz : handlerSlot h = 0) :
    h ≠ .serving := by
  cases h <;> simp_all [handlerSlot]

theorem natSumZero {l : List Nat} (h : l.sum = 0) : ∀ x ∈ l, x = 0 := by
  induction l with
  | nil => intro x hx; cases hx
  | cons a t ih =>
    rw [List.sum_cons] at h
    intro x hx
    rcases List.mem_cons.mp hx with hx | hx
    · omega
    · exact ih (by omega) x hx

theorem inv_step {s : Srv} {l : Lab} {s2 : Srv} (hs : Inv s)
    (hstep : Step s l s2) : Inv s2 := by
  obtain ⟨cNone, pNone, cSp, pSp, lc, ck, de, dr, rfp, prt⟩ := hs
  cases hstep with
  | stopKill =>
    refine ⟨cNone, pNone, cSp, pSp, lc, ?_, ?_, dr, ?_, ?_⟩
    · intro _
      exact Tomb.kill_ne_alive s.tomb none
    · intro r hr
      exact de r (Tomb.kill_dead hr)
    · intro e he
      exact rfp e (Tomb.kill_none_some he)
    · intro e he
      exact Tomb.kill_none_pres (prt e he)
  | runSpawnCloser h =>
    refine ⟨?_, ?_, ?_, ?_, ?_, ck, ?_, ?_, rfp, prt⟩
    · intro hc; simp at hc
    · intro _; exact pNone (by simp [h, runRank])
    · intro _; rfl
    · intro h2; simp [runRank] at h2
    · intro h2; simp [runRank] at h2
    · intro r hr
      have h2 := de r hr
      rw [h] at h2
      exact absurd h2 (by decide)
    · intro h2; simp [runRank] at h2
  | runSpawnPinger h =>
    refine ⟨?_, ?_, ?_, ?_, ?_, ck, ?_, ?_, ?_, ?_⟩
    · intro hc; simp at hc
    · intro h2; simp [runRank] at h2
    · intro _; exact cSp (by simp [h])
    · intro _; rfl
    · intro h2; simp [runRank] at h2
    · intro r hr
      have h2 := de r hr
      rw [h] at h2
      exact absurd h2 (by decide)
    · intro h2; simp [runRank] at h2
    · intro e he
      have hp := pNone (by simp [h, runRank])
      rcases rfp e he with hk | hk <;> simp [hp] at hk
    · intro e he
      rcases he with he | he <;> simp at he
  | accept h hl =>
    refine ⟨cNone, pNone, cSp, pSp, lc, ck, de, ?_, rfp, prt⟩
    intro h4
    simp [h, runRank] at h4
  | serveExit h hl =>
    refine ⟨?_, ?_, ?_, ?_, ?_, ck, ?_, ?_, rfp, prt⟩
    · intro hc; simp at hc
    · intro h2; simp [runRank] at h2
    · intro _; exact cSp (by simp [h])
    · intro _; exact pSp (by simp [h, runRank])
    · intro _; exact hl
    · intro r hr
      have h2 := de r hr
      rw [h] at h2
      exact absurd h2 (by decide)
    · intro h2; simp [runRank] at h2
  | wgWaitPass h hw =>
    refine ⟨?_, ?_, ?_, ?_, ?_, ck, ?_, ?_, rfp, prt⟩
    · intro hc; simp at hc
    · intro h2; simp [runRank] at h2
    · intro _; exact cSp (by simp [h])
    · intro _; exact pSp (by simp [h, runRank])
    · intro _; exact lc (by simp [h, runRank])
    · intro r hr
      have h2 := de r hr
      rw [h] at h2
      exact absurd h2 (by decide)
    · intro _
      have hcs := cSp (by simp [h])
      have hps := pSp (by simp [h, runRank])
      simp only [wgCount] at hw
      have hc0 : closerSlot s.closer = 0 := by omega
      have hp0 : pingerSlot s.pinger = 0 := by omega
      have hs0 : (s.handlers.map handlerSlot).sum = 0 := by omega
      refine ⟨closerSlot_zero hcs hc0, pingerSlot_zero hps hp0, ?_⟩
      intro hh hmem
      exact handlerSlot_zero
        (natSumZero hs0 (handlerSlot hh) (List.mem_map_of_mem _ hmem))
  | runTombDone h =>
    refine ⟨?_, ?_, ?_, ?_, ?_, ?_, ?_, ?_, ?_, ?_⟩
    · intro hc; simp at hc
    · intro h2; simp [runRank] at h2
    · intro _; exact cSp (by simp [h])
    · intro _; exact pSp (by simp [h, runRank])
    · intro _; exact lc (by simp [h, runRank])
    · intro _; exact Tomb.done_ne_alive s.tomb
    · intro r _; rfl
    · intro _; exact dr (by simp [h, runRank])
    · intro e he; exact rfp e (Tomb.done_some he)
    · intro e he; exact Tomb.done_pres (prt e he)
  | closerClose h hd =>
    refine ⟨?_, pNone, ?_, pSp, ?_, ?_, de, ?_, rfp, prt⟩
    · intro h2; simp [cNone h2] at h
    · intro _; rfl
    · intro _; rfl
    · intro _; exact hd
    · intro h4
      have h2 := (dr h4).1
      rw [h] at h2
      exact absurd h2 (by decide)
  | closerDone h =>
    refine ⟨?_, pNone, ?_, pSp, lc, ck, de, ?_, rfp, prt⟩
    · intro h2; simp [cNone h2] at h
    · intro _; rfl
    · intro h4; exact ⟨rfl, (dr h4).2.1, (dr h4).2.2⟩
  | pingOk h =>
    exact ⟨cNone, pNone, cSp, pSp, lc, ck, de, dr, rfp, prt⟩
  | pingFail e h =>
    refine ⟨cNone, ?_, cSp, ?_, lc, ck, de, ?_, ?_, ?_⟩
    · intro h2
      exfalso
      rw [pNone h2] at h
      exact Option.noConfusion h
    · intro _; rfl
    · intro h4
      exfalso
      obtain ⟨_, ⟨r2, hp⟩, _⟩ := dr h4
      rw [hp] at h
      simp at h
    · intro e2 he
      exfalso
      rcases rfp e2 he with hk | hk <;> (rw [h] at hk; simp at hk)
    · intro e2 he
      exfalso
      rcases he with he | he <;> simp at he
  | pingObserveDying h hd =>
    refine ⟨cNone, ?_, cSp, ?_, lc, ck, de, ?_, ?_, ?_⟩
    · intro h2
      exfalso
      rw [pNone h2] at h
      exact Option.noConfusion h
    · intro _; rfl
    · intro h4
      exfalso
      obtain ⟨_, ⟨r2, hp⟩, _⟩ := dr h4
      rw [hp] at h
      simp at h
    · intro e2 he
      exfalso
      rcases rfp e2 he with hk | hk <;> (rw [h] at hk; simp at hk)
    · intro e2 he
      exfalso
      rcases he with he | he <;> simp at he
  | pingerKill r h =>
    have htomb : s.tomb = .alive ∨ s.tomb = .dying none := by
      cases ht : s.tomb with
      | alive => exact Or.inl rfl
      | dying ro =>
        cases ro with
        | none => exact Or.inr rfl
        | some e2 =>
          exfalso
          rcases rfp e2 (Or.inl ht) with hk | hk <;> (rw [h] at hk; simp at hk)
      | dead ro =>
        exfalso
        have hrun := de ro ht
        obtain ⟨_, ⟨r2, hp⟩, _⟩ := dr (by simp [hrun, runRank])
        rw [h] at hp
        simp at hp
    cases r with
    | none =>
      refine ⟨cNone, ?_, cSp, ?_, lc, ck, de, ?_, ?_, ?_⟩
      · intro h2
        exfalso
        rw [pNone h2] at h
        exact Option.noConfusion h
      · intro _; rfl
      · intro h4
        exfalso
        obtain ⟨_, ⟨r2, hp⟩, _⟩ := dr h4
        rw [h] at hp
        simp at hp
      · intro e2 he
        exfalso
        rcases rfp e2 he with hk | hk <;> (rw [h] at hk; simp at hk)
      · intro e2 he
        exfalso
        rcases he with he | he <;> simp at he
    | some e0 =>
      have hkill : s.tomb.kill (some e0) = .dying (some e0) :=
        Tomb.kill_some_from htomb
      refine ⟨cNone, ?_, cSp, ?_, lc, ?_, ?_, ?_, ?_, ?_⟩
      · intro h2
        exfalso
        rw [pNone h2] at h
        exact Option.noConfusion h
      · intro _; rfl
      · intro _
        exact Tomb.kill_ne_alive s.tomb (some e0)
      · intro r2 hr
        exact de r2 (Tomb.kill_dead hr)
      · intro h4
        exfalso
        obtain ⟨_, ⟨r2, hp⟩, _⟩ := dr h4
        rw [h] at hp
        simp at hp
      · intro e2 he
        have he2 : s.tomb.kill (some e0) = .dying (some e2) ∨
            s.tomb.kill (some e0) = .dead (some e2) := he
        rw [hkill] at he2
        rcases he2 with he2 | he2
        · have h3 : e0 = e2 := by simpa using he2
          subst h3
          exact Or.inl rfl
        · simp at he2
      · intro e2 he
        rcases he with he | he
        · have h3 : e0 = e2 := by simpa using he
          subst h3
          exact Or.inl hkill
        · simp at he
  | pingerDone r h =>
    refine ⟨cNone, ?_, cSp, ?_, lc, ck, de, ?_, ?_, ?_⟩
    · intro h2
      exfalso
      rw [pNone h2] at h
      exact Option.noConfusion h
    · intro _; rfl
    · intro h4
      exact ⟨(dr h4).1, ⟨r, rfl⟩, (dr h4).2.2⟩
    · intro e2 he
      rcases rfp e2 he with hk | hk
      · rw [h] at hk
        simp at hk
        exact Or.inr (by rw [hk])
      · exfalso
        rw [h] at hk
        simp at hk
    · intro e2 he
      rcases he with he | he
      · exfalso; simp at he
      · simp at he
        exact prt e2 (Or.inl (by rw [h, he]))
  | handlerAdd i h =>
    refine ⟨cNone, pNone, cSp, pSp, lc, ck, de, ?_, rfp, prt⟩
    intro h4
    obtain ⟨a, b, c⟩ := dr h4
    refine ⟨a, b, ?_⟩
    intro hh hmem
    rcases List.mem_or_eq_of_mem_set hmem with hm | hm
    · exact c hh hm
    · simp [hm]
  | handlerEarlyExit i h hd =>
    refine ⟨cNone, pNone, cSp, pSp, lc, ck, de, ?_, rfp, prt⟩
    intro h4
    obtain ⟨a, b, c⟩ := dr h4
    refine ⟨a, b, ?_⟩
    intro hh hmem
    rcases List.mem_or_eq_of_mem_set hmem with hm | hm
    · exact c hh hm
    · simp [hm]
  | handlerBeginServe i h ha =>
    refine ⟨cNone, pNone, cSp, pSp, lc, ?_, ?_, ?_, ?_, ?_⟩
    · intro hlc
      exact absurd ha (ck hlc)
    · intro r hr
      rw [ha] at hr
      exact absurd hr (by simp)
    · intro h4
      exfalso
      have h4b : 4 ≤ runRank s.run := h4
      exact (ck (lc (by omega))) ha
    · intro e2 he
      exfalso
      have he2 : s.tomb = .dying (some e2) ∨ s.tomb = .dead (some e2) := he
      rcases he2 with he2 | he2 <;> (rw [ha] at he2; simp at he2)
    · intro e2 he
      exfalso
      rcases prt e2 he with hh | hh <;> (rw [ha] at hh; simp at hh)
  | handlerFinish i h =>
    refine ⟨cNone, pNone, cSp, pSp, lc, ck, de, ?_, rfp, prt⟩
    intro h4
    obtain ⟨a, b, c⟩ := dr h4
    refine ⟨a, b, ?_⟩
    intro hh hmem
    rcases List.mem_or_eq_of_mem_set hmem with hm | hm
    · exact c hh hm
    · simp [hm]

/-- Every reachable state satisfies the invariant. -/
theorem inv_reachable {s : Srv} (h : Reachable s) : Inv s := by
  induction h with
  | start => exact inv_init
  | step _ hstep ih => exact inv_step ih hstep

theorem reach_deadSrv : Reachable deadSrv := by
  have h0 : Reachable initSrv := .start
  have h1 : Reachable
      { tomb := .alive, listenerClosed := false, run := .spawnPinger,
        closer := some .waitDying, pinger := none, handlers := [] } :=
    Reachable.step h0 (Step.runSpawnCloser initSrv rfl)
  have h2 : Reachable
      { tomb := .alive, listenerClosed := false, run := .serving,
        closer := some .waitDying, pinger := some .loop, handlers := [] } :=
    Reachable.step h1 (Step.runSpawnPinger _ rfl)
  have h3 : Reachable
      { tomb := .dying none, listenerClosed := false, run := .serving,
        closer := some .waitDying, pinger := some .loop, handlers := [] } :=
    Reachable.step h2 (Step.stopKill _)
  have h4 : Reachable
      { tomb := .dying none, listenerClosed := true, run := .serving,
        closer := some .closedLis, pinger := some .loop, handlers := [] } :=
    Reachable.step h3 (Step.closerClose _ rfl (by decide))
  have h5 : Reachable
      { tomb := .dying none, listenerClosed := true, run := .serving,
        closer := some .exited, pinger := some .loop, handlers := [] } :=
    Reachable.step h4 (Step.closerDone _ rfl)
  have h6 : Reachable
      { tomb := .dying none, listenerClosed := true, run := .serving,
        closer := some .exited, pinger := some (.returned none),
        handlers := [] } :=
    Reachable.step h5 (Step.pingObserveDying _ rfl (by decide))
  have h7 : Reachable
      { tomb := .dying none, listenerClosed := true, run := .serving,
        closer := some .exited, pinger := some (.killed none),
        handlers := [] } :=
    Reachable.step h6 (Step.pingerKill _ none rfl)
  have h8 : Reachable
      { tomb := .dying none, listenerClosed := true, run := .serving,
        closer := some .exited, pinger := some (.exited none),
        handlers := [] } :=
    Reachable.step h7 (Step.pingerDone _ none rfl)
  have h9 : Reachable
      { tomb := .dying none, listenerClosed := true, run := .wgWait,
        closer := some .exited, pinger := some (.exited none),
        handlers := [] } :=
    Reachable.step h8 (Step.serveExit _ rfl rfl)
  have h10 : Reachable
      { tomb := .dying none, listenerClosed := true, run := .tombDone,
        closer := some .exited, pinger := some (.exited none),
        handlers := [] } :=
    Reachable.step h9 (Step.wgWaitPass _ rfl rfl)
  exact Reachable.step h10 (Step.runTombDone _ rfl)

/-- **C1**: after `Stop()` has begun the shutdown (the tomb is no longer
alive) no connection handler begins serving requests; the server reports
dead only after the accept loop (`run`), the listener closer, the mongo
pinger and every serving connection handler have exited; and a handler
serving a request can always take its own finish step — no transition of
the system forcibly terminates it. -/
theorem C1_stop_drains_before_dead {s : Srv} (hs : Reachable s) :
    (∀ r, s.tomb = .dead r →
      s.run = .exited ∧ s.closer = some .exited ∧
        (∃ pr, s.pinger = some (.exited pr)) ∧
        ∀ h ∈ s.handlers, h ≠ .serving) ∧
    (∀ s2 i, Step s (.handlerBeginServe i) s2 → s.tomb = .alive) ∧
    (∀ i, s.handlers.get? i = some .serving →
      Step s (.handlerFinish i)
        { s with handlers := s.handlers.set i (.exited true) }) := by
  obtain ⟨cNone, pNone, cSp, pSp, lc, ck, de, dr, rfp, prt⟩ := inv_reachable hs
  refine ⟨?_, ?_, ?_⟩
  · intro r hr
    have hrun := de r hr
    have hd := dr (by simp [hrun, runRank])
    exact ⟨hrun, hd.1, hd.2.1, hd.2.2⟩
  · intro s2 i hstep
    cases hstep with
    | handlerBeginServe i2 h ha => exact ha
  · intro i h
    exact Step.handlerFinish s i h

/-- Witness for C1: the theorem applied on the concrete stop-and-drain
trace ending in `deadSrv`. -/
theorem C1_stop_drains_before_dead_witness :
    deadSrv.run = .exited ∧ deadSrv.closer = some .exited ∧
      (∃ pr, deadSrv.pinger = some (.exited pr)) ∧
      ∀ h ∈ deadSrv.handlers, h ≠ .serving :=
  (C1_stop_drains_before_dead reach_deadSrv).1 none rfl

/-- **C5**: a failed mongo ping kills the tomb with exactly that error as
the dying reason; a non-nil terminal reason can only originate from the
pinger's failure (no other task kills the server with an error); and at
dead with a non-nil reason, `Wait()`/`Stop()` retrieve that ping error and
the pinger is the task that failed with it. -/
theorem C5_ping_failure_is_terminal_cause {s : Srv} (hs : Reachable s) :
    (∀ e s2, s.pinger = some (.returned (some e)) →
      Step s .pingerKill s2 → s2.tomb = .dying (some e)) ∧
    (∀ e, (s.tomb = .dying (some e) ∨ s.tomb = .dead (some e)) →
      s.pinger = some (.killed (some e)) ∨
        s.pinger = some (.exited (some e))) ∧
    (∀ e, s.tomb = .dead (some e) →
      waitOutcome s = some (some e) ∧ s.pinger = some (.exited (some e))) := by
  obtain ⟨cNone, pNone, cSp, pSp, lc, ck, de, dr, rfp, prt⟩ := inv_reachable hs
  refine ⟨?_, ?_, ?_⟩
  · intro e s2 hp hstep
    have htomb : s.tomb = .alive ∨ s.tomb = .dying none := by
      cases ht : s.tomb with
      | alive => exact Or.inl rfl
      | dying ro =>
        cases ro with
        | none => exact Or.inr rfl
        | some e2 =>
          exfalso
          rcases rfp e2 (Or.inl ht) with hk | hk <;> (rw [hp] at hk; simp at hk)
      | dead ro =>
        exfalso
        have hrun := de ro ht
        obtain ⟨_, ⟨r2, hp2⟩, _⟩ := dr (by simp [hrun, runRank])
        rw [hp] at hp2
        simp at hp2
    cases hstep with
    | pingerKill r h2 =>
      rw [hp] at h2
      simp at h2
      subst h2
      exact Tomb.kill_some_from htomb
  · intro e he
    exact rfp e he
  · intro e he
    have hrun := de (some e) he
    obtain ⟨_, ⟨r2, hp2⟩, _⟩ := dr (by simp [hrun, runRank])
    rcases rfp e (Or.inr he) with hk | hk
    · exfalso
      rw [hp2] at hk
      simp at hk
    · exact ⟨by simp [waitOutcome, he], hk⟩

theorem reach_pingFailSrv : Reachable pingFailSrv := by
  have h0 : Reachable initSrv := .start
  have h1 : Reachable
      { tomb := .alive, listenerClosed := false, run := .spawnPinger,
        closer := some .waitDying, pinger := none, handlers := [] } :=
    Reachable.step h0 (Step.runSpawnCloser initSrv rfl)
  have h2 : Reachable
      { tomb := .alive, listenerClosed := false, run := .serving,
        closer := some .waitDying, pinger := some .loop, handlers := [] } :=
    Reachable.step h1 (Step.runSpawnPinger _ rfl)
  exact Reachable.step h2 (Step.pingFail _ "ping-error" rfl)

/-- Witness for C5: the theorem applied on the concrete ping-failure trace. -/
theorem C5_ping_failure_is_terminal_cause_witness :
    pingKilledSrv.tomb = .dying (some "ping-error") :=
  (C5_ping_failure_is_terminal_cause reach_pingFailSrv).1 "ping-error"
    pingKilledSrv rfl (Step.pingerKill pingFailSrv (some "ping-error") rfl)

theorem lim_active_le {cap : Nat} {s : LimState} (hs : LReach cap s) :
    s.active ≤ cap := by
  induction hs with
  | start => simp
  | step hr hstep ih =>
    cases hstep with
    | arrive => exact ih
    | acquire hw hc => exact hc
    | release ha => exact Nat.le_trans (Nat.sub_le _ _) ih

theorem lreach_waiting (cap w : Nat) : LReach cap ⟨w, 0⟩ := by
  induction w with
  | zero => exact .start
  | succ n ih => exact ih.step (LStep.arrive ⟨n, 0⟩)

theorem lreach_load (cap : Nat) :
    ∀ a w, a ≤ cap → LReach cap ⟨w, a⟩ := by
  intro a
  induction a with
  | zero => intro w _; exact lreach_waiting cap w
  | succ b ih =>
    intro w hb
    exact (ih (w + 1) (by omega)).step
      (LStep.acquire ⟨w + 1, b⟩ (by show 0 < w + 1; omega) (by show b < cap; omega))

/-- **C6**: the limiter `NewServer` installs has capacity
`loginRateLimit = 10`; in every reachable limiter state at most that many
logins are serviced concurrently; any step that grants a slot requires the
capacity not to be exhausted (an 11th concurrent login blocks); and a
blocked login at full capacity is never rejected — no acquire is possible,
but after any one active login releases, the acquire is enabled again. -/
theorem C6_login_admission_bound {s : LimState}
    (hs : LReach loginRateLimit s) :
    loginRateLimit = 10 ∧
    (∀ listen keypair env dd ld srv,
      NewServer listen keypair env dd ld = .ok srv →
      srv.limiterCapacity = loginRateLimit) ∧
    s.active ≤ loginRateLimit ∧
    (∀ l s2, LStep loginRateLimit s l s2 → s.active < s2.active →
      s.active < loginRateLimit) ∧
    (0 < s.waiting → s.active = loginRateLimit →
      (∀ s2, ¬ LStep loginRateLimit s .acquire s2) ∧
        ∃ s2, LStep loginRateLimit s .release s2 ∧
          LStep loginRateLimit s2 .acquire ⟨s.waiting - 1, loginRateLimit⟩) := by
  obtain ⟨w, a⟩ := s
  refine ⟨rfl, ?_, lim_active_le hs, ?_, ?_⟩
  · intro listen keypair env dd ld srv h
    cases listen with
    | error e => simp [NewServer] at h
    | ok l =>
      cases keypair with
      | error e => simp [NewServer] at h
      | ok c =>
        simp [NewServer] at h
        subst h
        rfl
  · intro l s2 hstep hlt
    cases hstep with
    | arrive => exact absurd hlt (lt_irrefl _)
    | acquire hw hc => exact hc
    | release ha =>
      have h2 : a < a - 1 := hlt
      omega
  · intro hw ha
    have hw2 : 0 < w := hw
    have ha2 : a = loginRateLimit := ha
    subst ha2
    constructor
    · intro s2 hstep
      cases hstep with
      | acquire hw3 hc =>
        have h2 : loginRateLimit < loginRateLimit := hc
        omega
    · refine ⟨⟨w, loginRateLimit - 1⟩, ?_, ?_⟩
      · exact LStep.release ⟨w, loginRateLimit⟩
          (by show 0 < loginRateLimit; decide)
      · exact LStep.acquire ⟨w, loginRateLimit - 1⟩ (by show 0 < w; exact hw2)
          (by show loginRateLimit - 1 < loginRateLimit; decide)

/-- Witness for C6 at the concrete reachable full state: 10 active logins,
one waiting. -/
theorem C6_login_admission_bound_witness :
    loginRateLimit = 10 ∧
      ((∀ s2, ¬ LStep loginRateLimit ⟨1, 10⟩ .acquire s2) ∧
        ∃ s2, LStep loginRateLimit ⟨1, 10⟩ .release s2 ∧
          LStep loginRateLimit s2 .acquire ⟨0, loginRateLimit⟩) :=
  ⟨(C6_login_admission_bound (lreach_load loginRateLimit 10 1 (by decide))).1,
   (C6_login_admission_bound
      (lreach_load loginRateLimit 10 1 (by decide))).2.2.2.2
     (by decide) rfl⟩

/-! ### Claim C4: tenant scope validation -/

/-- **C4**: a request carrying a non-empty environment UUID that differs
from the server's resolved scope fails with the distinct
unknown-environment error — not the generic authorization error — while a
request with an empty UUID is admitted. -/
theorem C4_scope_mismatch_distinct_error (srv : SrvScope)
    (fetch : Except String String) (envUUID resolved : String) :
    (envUUID = "" → validateEnvironUUID srv fetch envUUID = .ok srv) ∧
    (envUUID ≠ "" → resolvedScope srv fetch = .ok resolved →
      envUUID ≠ resolved →
      validateEnvironUUID srv fetch envUUID =
          .error (.unknownEnvironment envUUID) ∧
        APIErr.unknownEnvironment envUUID ≠ .unauthorized) := by
  constructor
  · intro h
    simp [validateEnvironUUID, h]
  · intro hne hres hmis
    refine ⟨?_, by simp⟩
    simp [validateEnvironUUID, hne, hres, hmis]

/-- Witness for C4: an empty scope is admitted; the concrete mismatching
scope "env-b" against resolved "env-a" yields the unknown-environment
error. -/
theorem C4_scope_mismatch_distinct_error_witness :
    validateEnvironUUID ⟨"env-a"⟩ (.ok "env-a") "" = .ok ⟨"env-a"⟩ ∧
      (validateEnvironUUID ⟨""⟩ (.ok "env-a") "env-b" =
          .error (.unknownEnvironment "env-b") ∧
        APIErr.unknownEnvironment "env-b" ≠ .unauthorized) :=
  ⟨(C4_scope_mismatch_distinct_error ⟨"env-a"⟩ (.ok "env-a") "" "env-a").1 rfl,
   (C4_scope_mismatch_distinct_error ⟨""⟩ (.ok "env-a") "env-b" "env-a").2
     (by decide) rfl (by decide)⟩

/-! ### Claim C8: request notifier ids -/

theorem wrap64_small {x : Int} (h1 : -(2 ^ 63) ≤ x) (h2 : x < 2 ^ 63) :
    wrap64 x = x := by
  have h63 : (2 : Int) ^ 63 = 9223372036854775808 := by norm_num
  have h64 : (2 : Int) ^ 64 = 18446744073709551616 := by norm_num
  simp only [wrap64, h63, h64] at h1 h2 ⊢
  omega

theorem wrap64_shift (a b : Int) : wrap64 (wrap64 a + b) = wrap64 (a + b) := by
  have h63 : (2 : Int) ^ 63 = 9223372036854775808 := by norm_num
  have h64 : (2 : Int) ^ 64 = 18446744073709551616 := by norm_num
  simp only [wrap64, h63, h64]
  omega

theorem wrap64_natcast_small {n : Nat} (h : n < 2 ^ 63) :
    wrap64 n = n := by
  apply wrap64_small
  · have h0 : (0 : Int) ≤ n := Int.natCast_nonneg n
    have h63 : (0 : Int) < 2 ^ 63 := by positivity
    omega
  · exact_mod_cast h

/-- The id handed to the `k`-th call is the 64-bit wraparound of `k`. -/
theorem requestCounter_eq (k : Nat) : requestCounter k = wrap64 k := by
  induction k with
  | zero =>
    show (0 : Int) = wrap64 0
    have h63 : (2 : Int) ^ 63 = 9223372036854775808 := by norm_num
    have h64 : (2 : Int) ^ 64 = 18446744073709551616 := by norm_num
    simp only [wrap64, h63, h64, Nat.cast_zero]
    decide
  | succ n ih =>
    show addInt64 (requestCounter n) 1 = wrap64 (↑(n + 1))
    rw [ih]
    show wrap64 (wrap64 ↑n + 1) = wrap64 ↑(n + 1)
    rw [wrap64_shift]
    push_cast
    rfl

/-- **C8 counterexample**: on the int64 counter, call number 2^64 + 1 is
handed the same id as call number 1, and call number 2^63 is handed a
smaller id than call number 2^63 - 1 — the claim that ids returned by
distinct calls always differ and are strictly increasing is false once the
counter overflows. -/
theorem C8_counterexample :
    requestCounter 18446744073709551617 = requestCounter 1 ∧
      requestCounter 9223372036854775808 <
        requestCounter 9223372036854775807 := by
  rw [requestCounter_eq, requestCounter_eq, requestCounter_eq,
    requestCounter_eq]
  have h63 : (2 : Int) ^ 63 = 9223372036854775808 := by norm_num
  have h64 : (2 : Int) ^ 64 = 18446744073709551616 := by norm_num
  constructor <;> simp only [wrap64, h63, h64] <;> norm_num

/-- **C8** (amended): while the counter has not overflowed — among the
first 2^63 - 1 calls — `newRequestNotifier` hands out strictly increasing,
hence pairwise distinct, connection ids. -/
theorem C8_ids_increase_before_overflow {i j : Nat} (hij : i < j)
    (hj : j < 2 ^ 63) : requestCounter i < requestCounter j := by
  rw [requestCounter_eq, requestCounter_eq,
    wrap64_natcast_small (lt_trans hij hj), wrap64_natcast_small hj]
  exact_mod_cast hij

/-- Witness for the amended C8 at calls 1 and 2. -/
theorem C8_ids_increase_before_overflow_witness :
    requestCounter 1 < requestCounter 2 :=
  C8_ids_increase_before_overflow (by decide) (by norm_num)

/-! ### Claim C9: NewServer -/

/-- **C9**: `NewServer` returns an error — and no server — exactly when
binding the listener or parsing the certificate/key pair fails, and it
propagates that underlying error; for a bound listener and a parsed keypair
it returns the server carrying the listener's address and the login
limiter. -/
theorem C9_NewServer_success_iff (listen : Except String Listener)
    (keypair : Except String TLSCert) (env dd ld : String) :
    ((∃ srv, NewServer listen keypair env dd ld = .ok srv) ↔
      (∃ l, listen = .ok l) ∧ ∃ c, keypair = .ok c) ∧
    (∀ e, listen = .error e →
      NewServer listen keypair env dd ld = .error e) ∧
    (∀ l e, listen = .ok l → keypair = .error e →
      NewServer listen keypair env dd ld = .error e) ∧
    (∀ l c, listen = .ok l → keypair = .ok c →
      NewServer listen keypair env dd ld =
        .ok { stateEnvUUID := env, addr := l.addr, dataDir := dd,
              logDir := ld, limiterCapacity := loginRateLimit }) := by
  refine ⟨?_, ?_, ?_, ?_⟩ <;> cases listen <;> cases keypair <;>
    simp [NewServer]

/-- Witness for C9 on concrete outcomes of the listener bind and the
keypair parse. -/
theorem C9_NewServer_success_iff_witness :
    NewServer (.error "bind-failed") (.ok ⟨"cert"⟩) "e" "d" "l" =
        .error "bind-failed" ∧
      NewServer (.ok ⟨"addr-1"⟩) (.error "bad-pem") "e" "d" "l" =
        .error "bad-pem" ∧
      NewServer (.ok ⟨"addr-1"⟩) (.ok ⟨"cert"⟩) "e" "d" "l" =
        .ok { stateEnvUUID := "e", addr := "addr-1", dataDir := "d",
              logDir := "l", limiterCapacity := loginRateLimit } :=
  ⟨(C9_NewServer_success_iff (.error "bind-failed") (.ok ⟨"cert"⟩)
      "e" "d" "l").2.1 "bind-failed" rfl,
   (C9_NewServer_success_iff (.ok ⟨"addr-1"⟩) (.error "bad-pem")
      "e" "d" "l").2.2.1 ⟨"addr-1"⟩ "bad-pem" rfl rfl,
   (C9_NewServer_success_iff (.ok ⟨"addr-1"⟩) (.ok ⟨"cert"⟩)
      "e" "d" "l").2.2.2 ⟨"addr-1"⟩ ⟨"cert"⟩ rfl rfl⟩

end apiserver

end Juju
